import Mathlib

/-!
Verification development for the giotto-deep repository (reds-heig/giotto-deep).

This file gives a shallow embedding of the two components with real control
flow, faithful to the source files:

  * src/gdeep/pipeline/pipeline.py   (class Pipeline)
  * src/gdeep/data/dataset_cloud.py  (class DatasetCloud)

Modelling conventions:

  * Machine floats are modelled as rationals; the loss function and the model
    forward pass are abstract parameters (the source treats them as opaque
    callables).  The model is indexed by the number of optimizer steps taken
    so far (equal to the value of the train_cycle counter when the batch is
    evaluated), so that parameter updates between batches are visible.
  * Side effects (tensorboard writer calls, warnings, filesystem and network
    operations, accesses to the dataloaders list) are recorded in an explicit
    event trace.  Python exceptions are an explicit error type; an erroring
    computation keeps the trace accumulated before the raise, matching the
    observable behaviour of an exception propagating out of the call.
  * SubsetRandomSampler randomness is abstracted as an explicit permutation
    function argument; sample fetches through the sampler indices are checked
    eagerly at loader construction (the chosen inputs make the lazy/eager
    distinction unobservable).
  * pipeline.py never imports numpy, so the expressions np.mean(...) at lines
    241-242 raise NameError at run time; the embedding models this faithfully.
-/

/-- Python run-time exceptions that the embedded pipeline code can raise. -/
inductive PyErr where
  | nameError (n : String)
  | indexError
  | zeroDivisionError
  | runtimeError
  | valueError (n : String)
  deriving DecidableEq, Repr

/-- Observable side effects of the pipeline code: tensorboard scalar and
pr-curve emissions, writer flushes, warnings.warn calls, and element accesses
to the self.dataloaders list (readLoader i models self.dataloaders[i]). -/
inductive Event where
  | scalar (tag : String) (step : Nat)
  | prCurve (classIdx : Nat) (step : Nat)
  | flush
  | warn (msg : String)
  | readLoader (i : Nat)
  deriving DecidableEq, Repr

/-- A torch DataLoader, as consumed by pipeline.py: the underlying dataset
(used only through len(dl.dataset)) and the sequence of batches the iteration
yields; a sample is an input paired with an integer label. -/
structure DataLoader (X : Type) where
  dataset : List (X × Nat)
  batches : List (List (X × Nat))
  deriving DecidableEq

/-- The Pipeline object state: the static model / loss / dataloaders fields
and the three mutable counters set up in Pipeline.__init__ (lines 31-44).
modelF c x is the prediction row for sample x after c optimizer steps. -/
structure Pipeline (X : Type) where
  modelF : Nat → X → List ℚ
  dataloaders : List (DataLoader X)
  lossF : List (List ℚ) → List Nat → ℚ
  train_epoch : Nat
  train_cycle : Nat
  val_epoch : Nat

/-- Pipeline.reset_epoch (pipeline.py lines 46-52): zeroes the two epoch
counters and nothing else. -/
def Pipeline.reset_epoch {X : Type} (p : Pipeline X) : Pipeline X :=
  { p with train_epoch := 0, val_epoch := 0 }

/-- First index of a maximal entry of a prediction row, as computed by
pred.argmax(1) for one row. -/
def argmaxGo : List ℚ → ℚ → Nat → Nat → Nat
  | [], _, best, _ => best
  | y :: ys, mx, best, i => if mx < y then argmaxGo ys y i (i + 1) else argmaxGo ys mx best (i + 1)

/-- argmax of a row; rows are nonempty in every modelled run. -/
def argmaxIdx : List ℚ → Nat
  | [] => 0
  | x :: xs => argmaxGo xs x 0 1

/-- Number of positions where the row argmax equals the label, i.e. the value
of (pred.argmax(1) == y).type(torch.float).sum().item() for one batch. -/
def matchCount (pred : List (List ℚ)) (ys : List Nat) : Nat :=
  ((pred.zip ys).filter (fun pr => argmaxIdx pr.1 = pr.2)).length

/-- Prediction rows of one batch, under the weights after c optimizer steps. -/
def batchPred {X : Type} (p : Pipeline X) (c : Nat) (b : List (X × Nat)) : List (List ℚ) :=
  b.map (fun s => p.modelF c s.1)

/-- Loss of one batch under the weights after c optimizer steps. -/
def batchLoss {X : Type} (p : Pipeline X) (c : Nat) (b : List (X × Nat)) : ℚ :=
  p.lossF (batchPred p c b) (b.map Prod.snd)

/-- The per-batch body of Pipeline._train_loop (lines 64-81): forward pass,
correct-count accumulation, loss, add_scalar with step
train_epoch * batch + train_cycle, train_cycle increment, optimizer step.
Returns (last loss, accumulated correct count, updated pipeline, events). -/
def trainLoopAux {X : Type} (p : Pipeline X) (tag : String) (idx : Nat) (loss : ℚ)
    (correct : Nat) : List (List (X × Nat)) → ℚ × Nat × Pipeline X × List Event
  | [] => (loss, correct, p, [])
  | b :: rest =>
    let pred := batchPred p p.train_cycle b
    let correct2 := correct + matchCount pred (b.map Prod.snd)
    let loss2 := p.lossF pred (b.map Prod.snd)
    let ev := Event.scalar (tag ++ "/Loss/train") (p.train_epoch * idx + p.train_cycle)
    let p2 := { p with train_cycle := p.train_cycle + 1 }
    let r := trainLoopAux p2 tag (idx + 1) loss2 correct2 rest
    (r.1, r.2.1, r.2.2.1, ev :: r.2.2.2)

/-- Pipeline._train_loop (lines 54-88): runs the batch loop starting from the
sentinel loss -100, then divides the correct count by len(dl.dataset)
(ZeroDivisionError when the dataset is empty) and flushes the writer. -/
def trainLoop {X : Type} (p : Pipeline X) (dl : DataLoader X) (tag : String) :
    Except PyErr (ℚ × ℚ) × Pipeline X × List Event :=
  let size := dl.dataset.length
  let r := trainLoopAux p tag 0 (-100) 0 dl.batches
  if size = 0 then (.error .zeroDivisionError, r.2.2.1, r.2.2.2)
  else (.ok (r.1, (r.2.1 : ℚ) / (size : ℚ)), r.2.2.1, r.2.2.2 ++ [Event.flush])

/-- The batch loop of Pipeline._val_loop (lines 100-114): accumulates the
summed loss and the correct count, and tracks the pred variable (initialised
to the integer 0, i.e. none, and overwritten by each batch). -/
def valLoopAux {X : Type} (p : Pipeline X) (vl : ℚ) (correct : Nat)
    (lastPred : Option (List (List ℚ))) :
    List (List (X × Nat)) → ℚ × Nat × Option (List (List ℚ))
  | [] => (vl, correct, lastPred)
  | b :: rest =>
    let pred := batchPred p p.train_cycle b
    valLoopAux p (vl + p.lossF pred (b.map Prod.snd))
      (correct + matchCount pred (b.map Prod.snd)) (some pred) rest

/-- Pipeline._val_loop (lines 90-137): no-grad pass, per-class pr-curve
emissions with global_step 0, accuracy scalar at step val_epoch, returns
(summed loss, 100 * accuracy).  An empty loader faults at torch.cat
(runtimeError); an empty last batch faults at pred[0] (indexError); an empty
dataset faults at the division. -/
def valLoop {X : Type} (p : Pipeline X) (dl : DataLoader X) (tag : String) :
    Except PyErr (ℚ × ℚ) × Pipeline X × List Event :=
  let size := dl.dataset.length
  let r := valLoopAux p 0 0 none dl.batches
  match r.2.2 with
  | none => (.error .runtimeError, p, [])
  | some pred =>
    match pred.head? with
    | none => (.error .indexError, p, [])
    | some row0 =>
      let curveEvs := (List.range row0.length).map (fun ci => Event.prCurve ci 0)
      if size = 0 then (.error .zeroDivisionError, p, curveEvs ++ [Event.flush])
      else
        let acc : ℚ := (r.2.1 : ℚ) / (size : ℚ)
        (.ok (r.1, 100 * acc), p,
          curveEvs ++ [Event.flush,
            Event.scalar (tag ++ "/Accuracy/validation") p.val_epoch, Event.flush])

/-- Rebatching helper for torch DataLoader construction: groups a sample list
into consecutive batches of size bs (the last one possibly shorter). -/
def chunksAux {α : Type} (bs : Nat) (cur : List α) (k : Nat) : List α → List (List α)
  | [] => if cur.isEmpty then [] else [cur]
  | a :: rest =>
    if k ≤ 1 then (cur ++ [a]) :: chunksAux bs [] bs rest
    else chunksAux bs (cur ++ [a]) (k - 1) rest

/-- Batches of size bs over l. -/
def chunks {α : Type} (bs : Nat) (l : List α) : List (List α) :=
  if bs = 0 then [] else chunksAux bs [] bs l

/-- Fetch dataset[i] for every sampler index, IndexError on an out-of-range
index (the fold universe of train is len(loader) * batch_size, which can
exceed the dataset length; the chosen concrete inputs keep indices valid). -/
def fetchAll {X : Type} (ds : List (X × Nat)) : List Nat → Except PyErr (List (X × Nat))
  | [] => .ok []
  | i :: rest =>
    match ds[i]? with
    | none => .error .indexError
    | some s =>
      match fetchAll ds rest with
      | .error e => .error e
      | .ok l => .ok (s :: l)

/-- torch.utils.data.DataLoader(dataset, batch_size=bs, sampler=...) as built
in train (lines 217-226): the new loader shares the base dataset and yields
the sampled rows in batches of bs. -/
def buildLoader {X : Type} (ds : List (X × Nat)) (idxs : List Nat) (bs : Nat) :
    Except PyErr (DataLoader X) :=
  match fetchAll ds idxs with
  | .error e => .error e
  | .ok samples => .ok ⟨ds, chunks bs samples⟩

/-- Validation index block of fold i in sklearn KFold(k, shuffle=False) over
n samples: contiguous blocks, the first n mod k of size n/k + 1. -/
def kfoldVal (k n i : Nat) : List Nat :=
  List.range' (i * (n / k) + min i (n % k)) (n / k + if i < n % k then 1 else 0)

/-- The (train indices, validation indices) pairs produced by
KFold(k, shuffle=False).split over n samples. -/
def kfoldSplits (k n : Nat) : List (List Nat × List Nat) :=
  (List.range k).map
    (fun i => ((List.range n).filter (fun j => j ∉ kfoldVal k n i), kfoldVal k n i))

/-- The epoch loop of the cross-validation branch of Pipeline.train
(lines 232-237): per epoch sets val_epoch and train_epoch to t before the
passes, then one training pass and one validation pass. -/
def cvEpochs {X : Type} (p : Pipeline X) (dl_tr dl_val : DataLoader X) (t : Nat)
    (res : ℚ × ℚ) : Nat → Except PyErr (ℚ × ℚ) × Pipeline X × List Event
  | 0 => (.ok res, p, [])
  | r + 1 =>
    let p0 := { p with val_epoch := t, train_epoch := t }
    let tr := trainLoop p0 dl_tr ""
    match tr.1 with
    | .error e => (.error e, tr.2.1, tr.2.2)
    | .ok _ =>
      let vr := valLoop tr.2.1 dl_val ""
      match vr.1 with
      | .error e => (.error e, vr.2.1, tr.2.2 ++ vr.2.2)
      | .ok v =>
        let rec2 := cvEpochs vr.2.1 dl_tr dl_val (t + 1) v r
        (rec2.1, rec2.2.1, tr.2.2 ++ vr.2.2 ++ rec2.2.2)

/-- The fold loop of Pipeline.train (lines 213-242).  Each iteration warns
when three dataloaders were supplied, reads self.dataloaders[0].dataset twice
to build the two fold loaders, runs the epoch loop, appends the fold result,
and then evaluates np.mean(mean_val_loss) - but pipeline.py never imports
numpy, so this raises NameError in the first iteration and the remaining
folds are never reached. -/
def cvFolds {X : Type} (p : Pipeline X) (base : DataLoader X) (bs n_epochs : Nat)
    (perm : List Nat → List Nat) (res : ℚ × ℚ) :
    List (List Nat × List Nat) → Except PyErr (ℚ × ℚ) × Pipeline X × List Event
  | [] => (.ok res, p, [])
  | (tr_idx, val_idx) :: _rest =>
    let warnEvs : List Event :=
      if p.dataloaders.length = 3 then
        [Event.warn "Validation set is ignored in automatic Cross Validation"]
      else []
    let evs1 := warnEvs ++ [Event.readLoader 0]
    match buildLoader base.dataset (perm tr_idx) bs with
    | .error e => (.error e, p, evs1)
    | .ok dl_tr2 =>
      let evs2 := evs1 ++ [Event.readLoader 0]
      match buildLoader base.dataset (perm val_idx) bs with
      | .error e => (.error e, p, evs2)
      | .ok dl_val2 =>
        let er := cvEpochs p dl_tr2 dl_val2 0 res n_epochs
        match er.1 with
        | .error e => (.error e, er.2.1, evs2 ++ er.2.2)
        | .ok _ => (.error (.nameError "np"), er.2.1, evs2 ++ er.2.2)

/-- The epoch loop of the plain branch of Pipeline.train (lines 245-253):
training pass, then (only with three dataloaders) a validation pass followed
by val_epoch := t, then train_epoch := t.  res carries the local variables
valloss, valacc, unbound (none) until a validation pass assigns them. -/
def trainEpochsB {X : Type} (p : Pipeline X) (dl_tr : DataLoader X)
    (dlv : Option (DataLoader X)) (t : Nat) (res : Option (ℚ × ℚ)) :
    Nat → Except PyErr (Option (ℚ × ℚ)) × Pipeline X × List Event
  | 0 => (.ok res, p, [])
  | r + 1 =>
    let tr := trainLoop p dl_tr ""
    match tr.1 with
    | .error e => (.error e, tr.2.1, tr.2.2)
    | .ok _ =>
      match dlv with
      | some dl_val =>
        let vr := valLoop tr.2.1 dl_val ""
        match vr.1 with
        | .error e => (.error e, vr.2.1, tr.2.2 ++ vr.2.2)
        | .ok v =>
          let p3 := { vr.2.1 with val_epoch := t, train_epoch := t }
          let rec2 := trainEpochsB p3 dl_tr dlv (t + 1) (some v) r
          (rec2.1, rec2.2.1, tr.2.2 ++ vr.2.2 ++ rec2.2.2)
      | none =>
        let p2 := { tr.2.1 with train_epoch := t }
        let rec2 := trainEpochsB p2 dl_tr dlv (t + 1) res r
        (rec2.1, rec2.2.1, tr.2.2 ++ rec2.2.2)

/-- Pipeline.train (lines 185-260).  The optimizer construction is opaque to
the modelled observables.  dl_tr is self.dataloaders[0]; with three loaders
dl_val is self.dataloaders[1].  The cross-validation branch builds the fold
universe list(range(len(self.dataloaders[0]) * batch_size)) and iterates
KFold(5, shuffle=False) (sklearn raises ValueError when the universe is
smaller than 5).  The plain branch runs the epoch loop and, with exactly two
loaders, one final validation pass on self.dataloaders[1]; with one loader
the return statement reads the never-assigned local valloss, an
UnboundLocalError (a NameError subclass). -/
def Pipeline.train {X : Type} (p : Pipeline X) (n_epochs : Nat)
    (cross_validation : Bool) (batch_size : Nat) (perm : List Nat → List Nat) :
    Except PyErr (ℚ × ℚ) × Pipeline X × List Event :=
  match p.dataloaders[0]? with
  | none => (.error .indexError, p, [Event.readLoader 0])
  | some dl_tr =>
    let ev0 : List Event := [Event.readLoader 0]
    let dlv : Option (DataLoader X) :=
      if p.dataloaders.length = 3 then p.dataloaders[1]? else none
    let ev1 : List Event :=
      if p.dataloaders.length = 3 then ev0 ++ [Event.readLoader 1] else ev0
    if cross_validation then
      let ev2 := ev1 ++ [Event.readLoader 0]
      let n := dl_tr.batches.length * batch_size
      if n < 5 then (.error (.valueError "n_splits"), p, ev2)
      else
        let r := cvFolds p dl_tr batch_size n_epochs perm (-1, 0) (kfoldSplits 5 n)
        match r.1 with
        | .error err => (.error err, r.2.1, ev2 ++ r.2.2)
        | .ok v => (.ok v, r.2.1, ev2 ++ r.2.2 ++ [Event.flush])
    else
      let r := trainEpochsB p dl_tr dlv 0 none n_epochs
      match r.1 with
      | .error err => (.error err, r.2.1, ev1 ++ r.2.2)
      | .ok res =>
        if p.dataloaders.length = 2 then
          match p.dataloaders[1]? with
          | none => (.error .indexError, r.2.1, ev1 ++ r.2.2 ++ [Event.readLoader 1])
          | some dl1 =>
            let vr := valLoop r.2.1 dl1 ""
            match vr.1 with
            | .error err => (.error err, vr.2.1, ev1 ++ r.2.2 ++ [Event.readLoader 1] ++ vr.2.2)
            | .ok v =>
              (.ok v, vr.2.1, ev1 ++ r.2.2 ++ [Event.readLoader 1] ++ vr.2.2 ++ [Event.flush])
        else
          match res with
          | none => (.error (.nameError "valloss"), r.2.1, ev1 ++ r.2.2)
          | some v => (.ok v, r.2.1, ev1 ++ r.2.2 ++ [Event.flush])

/-- Indices of the dataloaders-list accesses recorded in a trace. -/
def readsOf (evs : List Event) : List Nat :=
  evs.filterMap (fun e => match e with | .readLoader i => some i | _ => none)

/-- Messages of the warnings.warn calls recorded in a trace. -/
def warnsOf (evs : List Event) : List String :=
  evs.filterMap (fun e => match e with | .warn m => some m | _ => none)

/-- Steps of the training-pass running-loss scalars recorded in a trace. -/
def lossStepsOf (evs : List Event) : List Nat :=
  evs.filterMap (fun e =>
    match e with
    | .scalar tag step => if tag = "/Loss/train" then some step else none
    | _ => none)


/-- Correct-count accumulated by a training pass: per batch the argmax-equality
matches under the weights current when that batch is visited. -/
def totalCorrect {X : Type} (mF : Nat → X → List ℚ) (c : Nat) :
    List (List (X × Nat)) → Nat
  | [] => 0
  | b :: rest =>
    matchCount (b.map (fun s => mF c s.1)) (b.map Prod.snd) + totalCorrect mF (c + 1) rest


/-!
Embedding of src/gdeep/data/dataset_cloud.py (class DatasetCloud).

The external world (bucket listing, public index file, local filesystem) is an
explicit state; network and filesystem writes are recorded as events.  Python
exceptions are an explicit error type.  A method that raises keeps the events
accumulated before the raise.  Notes on Python semantics preserved here:

  * __init__ sets self.path_metadata = None but never sets self.metadata, and
    only sets self._data_cloud when use_public_access is False; reading a
    never-assigned attribute raises AttributeError, modelled by the
    attributeError error value.
  * assert failures (AssertionError) are the assertionError error value; the
    ValueError raises carrying the requested name and the available-name
    listing are the structured notFound / alreadyExists values.
  * set(...) listing deduplication is modelled by List.dedup.
-/

/-- Remote and local state visible to a DatasetCloud client: the bucket blob
names, the parsed content of the public datasets.json index, and the set of
existing local filesystem paths. -/
structure Cloud where
  blobs : List String
  publicDatasets : List String
  localPaths : List String
  deriving DecidableEq, Repr

/-- Python exceptions raised by dataset_cloud.py code paths. -/
inductive CloudErr where
  | assertionError (msg : String)
  | alreadyExists (nm : String) (available : List String)
  | notFound (nm : String) (available : List String)
  | attributeError (attr : String)
  deriving DecidableEq, Repr

/-- JSON values appearing in the metadata record. -/
inductive JVal where
  | s (v : String)
  | n (v : Nat)
  | tup (v : List Nat)
  | null
  deriving DecidableEq, Repr

/-- The metadata dictionary built by _add_metadata (insertion order of the
Python dict literal at lines 319-327). -/
structure Metadata where
  name : String
  size : Nat
  input_size : List Nat
  num_labels : Option Nat
  task_type : String
  data_type : String
  data_format : String
  comment : Option String
  deriving DecidableEq, Repr

/-- Network / filesystem side effects of DatasetCloud operations. -/
inductive CloudEvent where
  | wget (url : String) (dest : String)
  | removeLocal (path : String)
  | notice (msg : String)
  | mkdir (path : String)
  | downloadFolder (pre : String)
  | uploadBlob (localPath : Option String) (remoteName : String)
  | writeList (path : String) (content : List String)
  | writeMetadata (path : String) (pairs : List (String × JVal)) (indent : Nat)
  deriving DecidableEq, Repr

/-- The DatasetCloud object state after __init__ (lines 34-63).  The
_data_cloud backend attribute exists exactly when use_public_access is false,
so it is represented by that flag rather than a separate field. -/
structure DatasetCloud where
  name : String
  bucket_name : String
  download_directory : String
  use_public_access : Bool
  make_public : Bool
  path_metadata : Option String
  metadata : Option Metadata
  deriving DecidableEq, Repr

/-- os.path.join for two components. -/
def pjoin (a b : String) : String := a ++ "/" ++ b

/-- DatasetCloud.__init__ (lines 34-63): private datasets get the name
"private_" followed by the dataset name; the download directory defaults to
examples/data/DataCloud; path_metadata is set to None and metadata is left
unset. -/
def DatasetCloud.init (dataset_name bucket_name : String)
    (download_directory : Option String) (use_public_access make_public : Bool) :
    DatasetCloud :=
  { name := if make_public || use_public_access then dataset_name
            else "private_" ++ dataset_name,
    bucket_name := bucket_name,
    download_directory := download_directory.getD (pjoin "examples" (pjoin "data" "DataCloud")),
    use_public_access := use_public_access,
    make_public := make_public,
    path_metadata := none,
    metadata := none }

/-- The public base url built in __init__ (lines 61-62). -/
def DatasetCloud.public_url (c : DatasetCloud) : String :=
  "https://storage.googleapis.com/" ++ c.bucket_name ++ "/"

/-- The first component of blob.name.split('/'): the characters before the
first slash.  Implemented by structural recursion on the character list so
that concrete instances evaluate inside the kernel. -/
def firstComponent (b : String) : String :=
  String.mk (b.data.takeWhile (fun ch => ch ≠ '/'))

/-- The set of dataset names used by the existence checks of _upload and
_download_using_api (lines 93-96 and 348-350): all first path components of
bucket blobs except the reserved image file, deduplicated. -/
def uploadListing (w : Cloud) : List String :=
  ((w.blobs.filter (fun b => b ≠ "giotto-deep-big.png")).map firstComponent).dedup

/-- The assertion message of _check_public_access (lines 221-225). -/
def publicAccessMsg : String := "Only download functionality is supported for public access."

/-- DatasetCloud._check_public_access (lines 221-225): assert that the client
is not in public-access mode. -/
def DatasetCloud._check_public_access (c : DatasetCloud) : Except CloudErr Unit :=
  if c.use_public_access then .error (.assertionError publicAccessMsg) else .ok ()

/-- DatasetCloud._get_filetype (lines 206-219): the extension after the last
dot. -/
def DatasetCloud._get_filetype (path : String) : String :=
  String.mk ((path.data.reverse.takeWhile (fun ch => ch ≠ '.')).reverse)

/-- DatasetCloud.get_existing_dataset (lines 148-179).  Public mode: fetch
and parse datasets.json, deduplicate, remove the temporary file.
Authenticated mode: first components of bucket blobs except the reserved
image and the index file, deduplicated, then names with the private marker
removed. -/
def DatasetCloud.get_existing_dataset (c : DatasetCloud) (w : Cloud) :
    List String × List CloudEvent :=
  if c.use_public_access then
    (w.publicDatasets.dedup,
     [CloudEvent.wget (c.public_url ++ "datasets.json") "tmp_datasets.json",
      CloudEvent.removeLocal "tmp_datasets.json"])
  else
    (((((w.blobs.filter
          (fun b => b ≠ "giotto-deep-big.png" && b ≠ "datasets.json")).map
            firstComponent).dedup).filter
              (fun d => ¬ d.startsWith "private_")), [])

/-- DatasetCloud._check_dataset_exists_locally (lines 109-115). -/
def DatasetCloud._check_dataset_exists_locally (c : DatasetCloud) (w : Cloud) : Bool :=
  w.localPaths.contains (pjoin c.download_directory c.name)

/-- DatasetCloud._download_using_url (lines 123-146): list, assert presence,
print a notice when the local folder already exists (otherwise create it),
and then fetch metadata.json, data.pt and labels.pt unconditionally.  The
notice string faithfully lacks a space between exists and in. -/
def DatasetCloud._download_using_url (c : DatasetCloud) (w : Cloud) :
    Except CloudErr Unit × List CloudEvent :=
  let ds := DatasetCloud.get_existing_dataset c w
  if c.name ∈ ds.1 then
    let localEvs :=
      if DatasetCloud._check_dataset_exists_locally c w then
        [CloudEvent.notice ("Dataset " ++ c.name ++ " already exists"
          ++ "in the download directory.")]
      else [CloudEvent.mkdir (pjoin c.download_directory c.name)]
    (.ok (), ds.2 ++ localEvs ++
      [CloudEvent.wget (c.public_url ++ c.name ++ "/metadata.json")
        (pjoin (pjoin c.download_directory c.name) "metadata.json"),
       CloudEvent.wget (c.public_url ++ c.name ++ "/data.pt")
        (pjoin (pjoin c.download_directory c.name) "data.pt"),
       CloudEvent.wget (c.public_url ++ c.name ++ "/labels.pt")
        (pjoin (pjoin c.download_directory c.name) "labels.pt")])
  else (.error (.notFound c.name ds.1), ds.2)

/-- DatasetCloud._download_using_api (lines 85-107): check mode, list bucket
names, raise ValueError when the requested name is absent, print the notice
or create the folder, then call download_folder unconditionally. -/
def DatasetCloud._download_using_api (c : DatasetCloud) (w : Cloud) :
    Except CloudErr Unit × List CloudEvent :=
  match DatasetCloud._check_public_access c with
  | .error e => (.error e, [])
  | .ok _ =>
    let existing := uploadListing w
    if c.name ∈ existing then
      let localEvs :=
        if DatasetCloud._check_dataset_exists_locally c w then
          [CloudEvent.notice ("Dataset " ++ c.name ++ " already exists"
            ++ "in the download directory.")]
        else [CloudEvent.mkdir (pjoin c.download_directory c.name)]
      (.ok (), localEvs ++ [CloudEvent.downloadFolder (c.name ++ "/")])
    else (.error (.notFound c.name existing), [])

/-- DatasetCloud.download (lines 74-83). -/
def DatasetCloud.download (c : DatasetCloud) (w : Cloud) :
    Except CloudErr Unit × List CloudEvent :=
  if c.use_public_access then DatasetCloud._download_using_url c w
  else DatasetCloud._download_using_api c w

/-- DatasetCloud._upload_data (lines 227-242): public-mode check, extension
allow-list assert, then one blob upload named from the metadata record
(AttributeError when metadata was never created). -/
def DatasetCloud._upload_data (c : DatasetCloud) (path : String) :
    Except CloudErr Unit × List CloudEvent :=
  match DatasetCloud._check_public_access c with
  | .error e => (.error e, [])
  | .ok _ =>
    let filetype := DatasetCloud._get_filetype path
    if filetype = "pt" ∨ filetype = "npy" then
      match c.metadata with
      | none => (.error (.attributeError "metadata"), [])
      | some m => (.ok (), [CloudEvent.uploadBlob (some path) (m.name ++ "/data." ++ filetype)])
    else (.error (.assertionError "File type not supported."), [])

/-- DatasetCloud._upload_label (lines 244-262).  Unlike every other
upload-class method this one never calls _check_public_access: after the
extension assert it immediately evaluates self._data_cloud.upload_file, so in
public mode (where __init__ created no _data_cloud attribute) it raises
AttributeError for _data_cloud, before the metadata lookup in the argument
expression. -/
def DatasetCloud._upload_label (c : DatasetCloud) (path : String) :
    Except CloudErr Unit × List CloudEvent :=
  let filetype := DatasetCloud._get_filetype path
  if filetype = "pt" ∨ filetype = "npy" then
    if c.use_public_access then (.error (.attributeError "_data_cloud"), [])
    else
      match c.metadata with
      | none => (.error (.attributeError "metadata"), [])
      | some m => (.ok (), [CloudEvent.uploadBlob (some path) (m.name ++ "/labels." ++ filetype)])
  else (.error (.assertionError "File type not supported."), [])

/-- DatasetCloud._upload_metadata (lines 264-282): public-mode check, then one
blob upload of the metadata file.  When metadata was never created, the
comparison self.metadata == None itself raises AttributeError, so the
intended Exception branch is unreachable. -/
def DatasetCloud._upload_metadata (c : DatasetCloud) (path : Option String) :
    Except CloudErr Unit × List CloudEvent :=
  match DatasetCloud._check_public_access c with
  | .error e => (.error e, [])
  | .ok _ =>
    match c.metadata with
    | none => (.error (.attributeError "metadata"), [])
    | some m => (.ok (), [CloudEvent.uploadBlob path (m.name ++ "/" ++ "metadata.json")])

/-- DatasetCloud._update_dataset_list (lines 181-201): public-mode check, then
rebuild the listing, write it to a temporary json file, upload it as
datasets.json and remove the temporary file. -/
def DatasetCloud._update_dataset_list (c : DatasetCloud) (w : Cloud) :
    Except CloudErr Unit × List CloudEvent :=
  match DatasetCloud._check_public_access c with
  | .error e => (.error e, [])
  | .ok _ =>
    let ds := DatasetCloud.get_existing_dataset c w
    (.ok (), ds.2 ++
      [CloudEvent.writeList "tmp_datasets.json" ds.1,
       CloudEvent.uploadBlob (some "tmp_datasets.json") "datasets.json",
       CloudEvent.removeLocal "tmp_datasets.json"])

/-- The metadata record of _add_metadata in the insertion order of the source
dict literal. -/
def Metadata.pairs (m : Metadata) : List (String × JVal) :=
  [("name", JVal.s m.name),
   ("size", JVal.n m.size),
   ("input_size", JVal.tup m.input_size),
   ("num_labels", match m.num_labels with | some k => JVal.n k | none => JVal.null),
   ("task_type", JVal.s m.task_type),
   ("data_type", JVal.s m.data_type),
   ("data_format", JVal.s m.data_format),
   ("comment", match m.comment with | some cm => JVal.s cm | none => JVal.null)]

/-- Strict lexicographic comparison on character lists, computable inside the
kernel. -/
def strLtChars : List Char → List Char → Bool
  | [], [] => false
  | [], _ :: _ => true
  | _ :: _, [] => false
  | a :: as, b :: bs => if a < b then true else if b < a then false else strLtChars as bs

/-- Strict lexicographic comparison of strings by code point, the order
json.dump sort_keys uses on these ascii keys. -/
def strLtB (a b : String) : Bool := strLtChars a.data b.data

/-- Insertion into a key-sorted association list (stable). -/
def insertByKey (p : String × JVal) : List (String × JVal) → List (String × JVal)
  | [] => [p]
  | q :: rest => if strLtB q.1 p.1 then q :: insertByKey p rest else p :: q :: rest

/-- json.dump with sort_keys=True reorders the record by key. -/
def sortByKey (l : List (String × JVal)) : List (String × JVal) := l.foldr insertByKey []

/-- Strict sortedness of a key list, as a computable check. -/
def strictSortedKeys : List String → Bool
  | [] => true
  | [_] => true
  | a :: b :: rest => strLtB a b && strictSortedKeys (b :: rest)

/-- DatasetCloud._add_metadata (lines 284-329): public-mode check; the name
defaults to the client dataset name and data_format to pytorch_tensor; sets
path_metadata and metadata on the object and writes the record to the
temporary json file with sorted keys and indent 4.  No remote state is
touched. -/
def DatasetCloud._add_metadata (c : DatasetCloud) (size_dataset : Nat)
    (input_size : List Nat) (num_labels : Option Nat) (data_type task_type : String)
    (nm : Option String) (data_format : Option String) (comment : Option String) :
    Except CloudErr DatasetCloud × List CloudEvent :=
  match DatasetCloud._check_public_access c with
  | .error e => (.error e, [])
  | .ok _ =>
    let nm2 := nm.getD c.name
    let df2 := data_format.getD "pytorch_tensor"
    let m : Metadata :=
      { name := nm2, size := size_dataset, input_size := input_size,
        num_labels := num_labels, task_type := task_type, data_type := data_type,
        data_format := df2, comment := comment }
    (.ok { c with path_metadata := some "tmp_metadata.json", metadata := some m },
     [CloudEvent.writeMetadata "tmp_metadata.json" (sortByKey m.pairs) 4])

/-- DatasetCloud._upload (lines 331-362): public-mode check; full-listing
existence check raising ValueError with the requested name and the available
set before any transfer; then metadata, data and label uploads in that order
and the index republication. -/
def DatasetCloud._upload (c : DatasetCloud) (w : Cloud) (path_data path_label : String)
    (path_metadata : Option String) : Except CloudErr Unit × List CloudEvent :=
  match DatasetCloud._check_public_access c with
  | .error e => (.error e, [])
  | .ok _ =>
    let existing := uploadListing w
    if c.name ∈ existing then (.error (.alreadyExists c.name existing), [])
    else
      let pm := match path_metadata with | some p0 => some p0 | none => c.path_metadata
      let r1 := DatasetCloud._upload_metadata c pm
      match r1.1 with
      | .error e => (.error e, r1.2)
      | .ok _ =>
        let r2 := DatasetCloud._upload_data c path_data
        match r2.1 with
        | .error e => (.error e, r1.2 ++ r2.2)
        | .ok _ =>
          let r3 := DatasetCloud._upload_label c path_label
          match r3.1 with
          | .error e => (.error e, r1.2 ++ r2.2 ++ r3.2)
          | .ok _ =>
            let r4 := DatasetCloud._update_dataset_list c w
            match r4.1 with
            | .error e => (.error e, r1.2 ++ r2.2 ++ r3.2 ++ r4.2)
            | .ok _ => (.ok (), r1.2 ++ r2.2 ++ r3.2 ++ r4.2)

/-- Payload-transfer events (blob uploads) recorded in a cloud trace. -/
def uploadsOf (evs : List CloudEvent) : List (Option String × String) :=
  evs.filterMap (fun e => match e with | .uploadBlob l r => some (l, r) | _ => none)

/-- True exactly when the result is an assertion failure, the shape of the
PreconditionViolation class of errors. -/
def isAssertionFailure {α : Type} : Except CloudErr α → Bool
  | .error (.assertionError _) => true
  | _ => false

/-!
Concrete instances used to evaluate the embedded code on explicit inputs.
The model is a constant two-class scorer and the loss a constant rational;
the claims settled on these inputs concern control flow, event traces and
raised exceptions, none of which depend on the numeric values.
-/

/-- Constant two-class model: every sample scores class 0 highest. -/
def constModel : Nat → Nat → List ℚ := fun _ _ => [1, 0]

/-- Constant loss function. -/
def constLoss : List (List ℚ) → List Nat → ℚ := fun _ _ => 0

/-- Sample i with label 0. -/
def rowOf (i : Nat) : Nat × Nat := (i, 0)

/-- A 10-sample train loader batched into 5 batches of 2, so that the fold
universe length times batch size equals the dataset length and all sampled
indices are valid. -/
def dlTrain10 : DataLoader Nat :=
  ⟨(List.range 10).map rowOf, chunks 2 ((List.range 10).map rowOf)⟩

/-- A one-batch loader with two samples. -/
def dlVal2 : DataLoader Nat := ⟨[(0, 0), (1, 0)], [[(0, 0), (1, 0)]]⟩

/-- A 6-sample train loader batched into 3 batches of 2. -/
def dlTrain6 : DataLoader Nat :=
  ⟨(List.range 6).map rowOf, chunks 2 ((List.range 6).map rowOf)⟩

/-- A freshly constructed single-loader pipeline. -/
def pipeOne : Pipeline Nat := ⟨constModel, [dlTrain10], constLoss, 0, 0, 0⟩

/-- A freshly constructed two-loader pipeline. -/
def pipeTwo : Pipeline Nat := ⟨constModel, [dlTrain6, dlVal2], constLoss, 0, 0, 0⟩

/-- A freshly constructed three-loader pipeline. -/
def pipeThree : Pipeline Nat := ⟨constModel, [dlTrain10, dlVal2, dlVal2], constLoss, 0, 0, 0⟩

/-- Public-access client for dataset toy with download directory dl. -/
def cPubToy : DatasetCloud := DatasetCloud.init "toy" "adversarial_attack" (some "dl") true true

/-- Authenticated client for dataset toy2. -/
def cAuthToy2 : DatasetCloud :=
  DatasetCloud.init "toy2" "adversarial_attack" (some "dl") false true

/-- World where toy is in the public index and its folder already exists
locally. -/
def wToy : Cloud := ⟨[], ["toy"], ["dl/toy"]⟩

/-- World where the bucket already holds blobs of a dataset named toy2. -/
def wDup : Cloud := ⟨["toy2/data.pt", "toy2/labels.pt"], [], []⟩

/-- World where toy2 is in the bucket and its folder already exists locally. -/
def wDupLocal : Cloud := ⟨["toy2/data.pt", "toy2/labels.pt"], [], ["dl/toy2"]⟩

/-- Metadata record with explicit field values, as assembled by
_add_metadata after applying the two defaults. -/
def mdRecord (nm2 : String) (size_dataset : Nat) (input_size : List Nat)
    (num_labels : Option Nat) (data_type task_type df2 : String)
    (comment : Option String) : Metadata :=
  { name := nm2, size := size_dataset, input_size := input_size,
    num_labels := num_labels, task_type := task_type, data_type := data_type,
    data_format := df2, comment := comment }

theorem trainLoopAux_state {X : Type} (p : Pipeline X) (tag : String)
    (bs : List (List (X × Nat))) (idx : Nat) (loss : ℚ) (correct : Nat) :
    (trainLoopAux p tag idx loss correct bs).2.2.1 =
      { p with train_cycle := p.train_cycle + bs.length } := by
  induction bs generalizing p idx loss correct with
  | nil => rfl
  | cons b rest ih =>
    simp only [trainLoopAux, ih, List.length_cons]
    congr 1
    omega

theorem trainLoopAux_events {X : Type} (p : Pipeline X) (tag : String)
    (bs : List (List (X × Nat))) (idx : Nat) (loss : ℚ) (correct : Nat) :
    (trainLoopAux p tag idx loss correct bs).2.2.2 =
      (List.range bs.length).map (fun j =>
        Event.scalar (tag ++ "/Loss/train")
          (p.train_epoch * (idx + j) + (p.train_cycle + j))) := by
  induction bs generalizing p idx loss correct with
  | nil => rfl
  | cons b rest ih =>
    simp only [trainLoopAux, ih, List.length_cons, List.range_succ_eq_map, List.map_cons,
      List.map_map]
    congr 1
    apply List.map_congr_left
    intro j _
    simp only [Function.comp_apply, Nat.succ_eq_add_one]
    congr 1
    ring

theorem trainLoopAux_correct {X : Type} (p : Pipeline X) (tag : String)
    (bs : List (List (X × Nat))) (idx : Nat) (loss : ℚ) (correct : Nat) :
    (trainLoopAux p tag idx loss correct bs).2.1 =
      correct + totalCorrect p.modelF p.train_cycle bs := by
  induction bs generalizing p idx loss correct with
  | nil => rfl
  | cons b rest ih =>
    simp only [trainLoopAux, ih, totalCorrect, batchPred]
    omega

theorem trainLoopAux_loss {X : Type} (p : Pipeline X) (tag : String)
    (bs : List (List (X × Nat))) (idx : Nat) (loss : ℚ) (correct : Nat) :
    (trainLoopAux p tag idx loss correct bs).1 =
      if bs.isEmpty then loss
      else batchLoss p (p.train_cycle + (bs.length - 1)) (bs.getLastD []) := by
  induction bs generalizing p idx loss correct with
  | nil => rfl
  | cons b rest ih =>
    cases rest with
    | nil => rfl
    | cons x xs =>
      have h1 : (trainLoopAux p tag idx loss correct (b :: x :: xs)).1 =
          (trainLoopAux { p with train_cycle := p.train_cycle + 1 } tag (idx + 1)
            (p.lossF (batchPred p p.train_cycle b) (b.map Prod.snd))
            (correct + matchCount (batchPred p p.train_cycle b) (b.map Prod.snd))
            (x :: xs)).1 := rfl
      rw [h1, ih]
      dsimp only [List.isEmpty_cons, List.length_cons, List.getLastD_cons, batchLoss, batchPred]
      have h2 : p.train_cycle + 1 + (xs.length + 1 - 1) = p.train_cycle + (xs.length + 1 + 1 - 1) := by
        omega
      rw [h2]
      simp [List.getLastD_cons]

theorem matchCount_le_length (pred : List (List ℚ)) (ys : List Nat) :
    matchCount pred ys ≤ pred.length := by
  unfold matchCount
  calc ((pred.zip ys).filter (fun pr => argmaxIdx pr.1 = pr.2)).length
      ≤ (pred.zip ys).length := List.length_filter_le _ _
    _ ≤ pred.length := by rw [List.length_zip]; omega

theorem totalCorrect_le {X : Type} (mF : Nat → X → List ℚ) (c : Nat)
    (bs : List (List (X × Nat))) :
    totalCorrect mF c bs ≤ (bs.map List.length).sum := by
  induction bs generalizing c with
  | nil => simp [totalCorrect]
  | cons b rest ih =>
    simp only [totalCorrect, List.map_cons, List.sum_cons]
    have h1 : matchCount (b.map (fun s => mF c s.1)) (b.map Prod.snd) ≤ b.length := by
      have := matchCount_le_length (b.map (fun s => mF c s.1)) (b.map Prod.snd)
      simpa using this
    have h2 := ih (c + 1)
    omega

theorem matchCount_eq_length {X : Type} (mF : X → List ℚ) (b : List (X × Nat))
    (h : ∀ s ∈ b, argmaxIdx (mF s.1) = s.2) :
    matchCount (b.map (fun s => mF s.1)) (b.map Prod.snd) = b.length := by
  unfold matchCount
  rw [List.zip_map']
  rw [List.filter_map]
  rw [List.filter_eq_self.2]
  · simp
  · intro a ha
    simpa using h a ha

theorem totalCorrect_eq {X : Type} (mF : Nat → X → List ℚ) (c : Nat)
    (bs : List (List (X × Nat)))
    (h : ∀ j b, bs[j]? = some b → ∀ s ∈ b, argmaxIdx (mF (c + j) s.1) = s.2) :
    totalCorrect mF c bs = (bs.map List.length).sum := by
  induction bs generalizing c with
  | nil => simp [totalCorrect]
  | cons b rest ih =>
    simp only [totalCorrect, List.map_cons, List.sum_cons]
    rw [matchCount_eq_length (mF c) b (by simpa using h 0 b (by simp))]
    rw [ih (c + 1)]
    intro j bb hbb
    have := h (j + 1) bb (by simpa using hbb)
    intro s hs
    have h3 := this s hs
    have : c + 1 + j = c + (j + 1) := by omega
    rw [this]
    exact h3

/-- Claim C7: on a non-empty training dataloader, the training pass returns
the loss of the last batch (not an average) and accuracy = matching-count
divided by the dataset length; the accuracy lies in the interval 0 to 1 and
equals 1 when the argmax matches the label for every sample visited. -/
theorem C7_train_pass_last_loss_accuracy {X : Type} (p : Pipeline X) (dl : DataLoader X)
    (tag : String) (hne : dl.batches ≠ [])
    (hsz : dl.dataset.length = (dl.batches.map List.length).sum)
    (hpos : 0 < dl.dataset.length) :
    (trainLoop p dl tag).1 =
      .ok (batchLoss p (p.train_cycle + (dl.batches.length - 1)) (dl.batches.getLastD []),
        (totalCorrect p.modelF p.train_cycle dl.batches : ℚ) / (dl.dataset.length : ℚ)) ∧
    0 ≤ (totalCorrect p.modelF p.train_cycle dl.batches : ℚ) / (dl.dataset.length : ℚ) ∧
    (totalCorrect p.modelF p.train_cycle dl.batches : ℚ) / (dl.dataset.length : ℚ) ≤ 1 ∧
    ((∀ j b, dl.batches[j]? = some b →
        ∀ s ∈ b, argmaxIdx (p.modelF (p.train_cycle + j) s.1) = s.2) →
      (totalCorrect p.modelF p.train_cycle dl.batches : ℚ) / (dl.dataset.length : ℚ) = 1) := by
  have hsz0 : dl.dataset.length ≠ 0 := by omega
  have htot : totalCorrect p.modelF p.train_cycle dl.batches ≤ dl.dataset.length := by
    rw [hsz]; exact totalCorrect_le _ _ _
  refine ⟨?_, ?_, ?_, ?_⟩
  · unfold trainLoop
    rw [if_neg hsz0]
    rw [trainLoopAux_loss, trainLoopAux_correct]
    rw [if_neg (by simpa using hne)]
    simp
  · positivity
  · rw [div_le_one (by exact_mod_cast hpos)]
    exact_mod_cast htot
  · intro hall
    rw [totalCorrect_eq p.modelF p.train_cycle dl.batches hall, ← hsz]
    rw [div_self (by exact_mod_cast hsz0)]

theorem lossStepsOf_trainLoop {X : Type} (p : Pipeline X) (dl : DataLoader X) :
    lossStepsOf (trainLoop p dl "").2.2 =
      (List.range dl.batches.length).map (fun j => p.train_epoch * j + (p.train_cycle + j)) := by
  dsimp only [trainLoop]
  split
  all_goals
    rw [trainLoopAux_events]
  · unfold lossStepsOf
    rw [List.filterMap_map]
    simp [Function.comp_def]
    exact List.filterMap_eq_map_iff_forall_eq_some.2 (fun a _ => rfl)
  · unfold lossStepsOf
    rw [List.filterMap_append, List.filterMap_map]
    simp [Function.comp_def]
    exact List.filterMap_eq_map_iff_forall_eq_some.2 (fun a _ => rfl)

/-- Claim C9: reset_epoch zeroes train_epoch and val_epoch and changes no
other Pipeline state; in particular train_cycle keeps its value, so the
scalar steps of a pass run after the reset continue from the pre-reset
counter (they are train_cycle, train_cycle + 1, ...) instead of restarting
at 0.  The writer and optimizer are external objects, not object state. -/
theorem C9_reset_epoch_frame {X : Type} (p : Pipeline X) (dl : DataLoader X) :
    (Pipeline.reset_epoch p).train_epoch = 0 ∧
    (Pipeline.reset_epoch p).val_epoch = 0 ∧
    (Pipeline.reset_epoch p).train_cycle = p.train_cycle ∧
    (Pipeline.reset_epoch p).modelF = p.modelF ∧
    (Pipeline.reset_epoch p).dataloaders = p.dataloaders ∧
    (Pipeline.reset_epoch p).lossF = p.lossF ∧
    lossStepsOf (trainLoop (Pipeline.reset_epoch p) dl "").2.2 =
      List.range' p.train_cycle dl.batches.length := by
  refine ⟨rfl, rfl, rfl, rfl, rfl, rfl, ?_⟩
  rw [lossStepsOf_trainLoop]
  rw [List.range'_eq_map_range]
  simp [Pipeline.reset_epoch]

theorem readsOf_append (a b : List Event) : readsOf (a ++ b) = readsOf a ++ readsOf b := by
  unfold readsOf
  rw [List.filterMap_append]

theorem readsOf_trainLoop {X : Type} (p : Pipeline X) (dl : DataLoader X) (tag : String) :
    readsOf (trainLoop p dl tag).2.2 = [] := by
  dsimp only [trainLoop]
  split <;>
  · rw [trainLoopAux_events]
    unfold readsOf
    first
    | (rw [List.filterMap_map]; simp [Function.comp_def])
    | (rw [List.filterMap_append, List.filterMap_map]; simp [Function.comp_def])

theorem readsOf_valLoop {X : Type} (p : Pipeline X) (dl : DataLoader X) (tag : String) :
    readsOf (valLoop p dl tag).2.2 = [] := by
  dsimp only [valLoop]
  split
  · rfl
  · split
    · rfl
    · split <;>
      · unfold readsOf
        rw [List.filterMap_append, List.filterMap_map]
        simp [Function.comp_def]

theorem readsOf_cvEpochs {X : Type} (p : Pipeline X) (dl_tr dl_val : DataLoader X)
    (t : Nat) (res : ℚ × ℚ) (n : Nat) :
    readsOf (cvEpochs p dl_tr dl_val t res n).2.2 = [] := by
  induction n generalizing p t res with
  | zero => rfl
  | succ r ih =>
    dsimp only [cvEpochs]
    split
    · rw [readsOf_trainLoop]
    · split
      · rw [readsOf_append, readsOf_trainLoop, readsOf_valLoop]
        rfl
      · rw [readsOf_append, readsOf_append, readsOf_trainLoop, readsOf_valLoop, ih]
        rfl

theorem readsOf_trainEpochsB {X : Type} (p : Pipeline X) (dl_tr : DataLoader X)
    (dlv : Option (DataLoader X)) (t : Nat) (res : Option (ℚ × ℚ)) (n : Nat) :
    readsOf (trainEpochsB p dl_tr dlv t res n).2.2 = [] := by
  induction n generalizing p t res with
  | zero => rfl
  | succ r ih =>
    dsimp only [trainEpochsB]
    split
    · rw [readsOf_trainLoop]
    · split
      · split
        · rw [readsOf_append, readsOf_trainLoop, readsOf_valLoop]
          rfl
        · rw [readsOf_append, readsOf_append, readsOf_trainLoop, readsOf_valLoop, ih]
          rfl
      · rw [readsOf_append, readsOf_trainLoop, ih]
        rfl

theorem readsOf_cvFolds {X : Type} (p : Pipeline X) (base : DataLoader X)
    (bs n_epochs : Nat) (perm : List Nat → List Nat) (res : ℚ × ℚ)
    (folds : List (List Nat × List Nat)) :
    ∀ i ∈ readsOf (cvFolds p base bs n_epochs perm res folds).2.2, i = 0 := by
  cases folds with
  | nil => intro i hi; cases hi
  | cons f rest =>
    obtain ⟨tr_idx, val_idx⟩ := f
    intro i hi
    dsimp only [cvFolds] at hi
    repeat' split at hi
    all_goals simp only [readsOf_append, readsOf_cvEpochs] at hi
    all_goals simp [readsOf] at hi
    all_goals omega

theorem readsOf_cvFolds_all {X : Type} (p : Pipeline X) (base : DataLoader X)
    (bs n_epochs : Nat) (perm : List Nat → List Nat) (res : ℚ × ℚ)
    (folds : List (List Nat × List Nat)) :
    ((readsOf (cvFolds p base bs n_epochs perm res folds).2.2).all
      (fun i => i == 0 || i == 1)) = true := by
  rw [List.all_eq_true]
  intro x hx
  have h0 := readsOf_cvFolds p base bs n_epochs perm res folds x hx
  simp [h0]

theorem readsOf_nil : readsOf [] = [] := rfl

theorem readsOf_cons_read (i : Nat) (l : List Event) :
    readsOf (Event.readLoader i :: l) = i :: readsOf l := rfl

theorem readsOf_cons_scalar (t : String) (st : Nat) (l : List Event) :
    readsOf (Event.scalar t st :: l) = readsOf l := rfl

theorem readsOf_cons_warn (m : String) (l : List Event) :
    readsOf (Event.warn m :: l) = readsOf l := rfl

theorem readsOf_cons_flush (l : List Event) : readsOf (Event.flush :: l) = readsOf l := rfl

theorem readsOf_cons_prCurve (c st : Nat) (l : List Event) :
    readsOf (Event.prCurve c st :: l) = readsOf l := rfl

theorem readsOf_train_all {X : Type} (p : Pipeline X) (n_epochs : Nat) (cv : Bool)
    (bs : Nat) (perm : List Nat → List Nat) :
    ((readsOf (Pipeline.train p n_epochs cv bs perm).2.2).all
      (fun i => i == 0 || i == 1)) = true := by
  dsimp only [Pipeline.train]
  repeat' split
  all_goals
    simp [readsOf_append, readsOf_trainLoop, readsOf_valLoop, readsOf_trainEpochsB,
      readsOf_nil, readsOf_cons_read, readsOf_cons_scalar, readsOf_cons_warn,
      readsOf_cons_flush, readsOf_cons_prCurve, List.all_append]
  all_goals exact fun x hx => Or.inl (readsOf_cvFolds _ _ _ _ _ _ _ x hx)


/-!
Claim theorems.  Each theorem below settles one claim of the specification
against the embedded code.
-/

/-- Claim C1 (evaluation of the code at a failing input): Pipeline.train with
cross_validation set runs the fold loop, but because pipeline.py never
imports numpy, the expression np.mean at line 241 raises NameError at the end
of the first fold, so the call returns no fold-averaged metrics.  Evaluated
on a fresh single-loader pipeline (5 batches of 2, dataset of 10), 2 epochs,
batch size 2, identity sampler order. -/
theorem C1_cross_validation_raises_nameError :
    (Pipeline.train pipeOne 2 true 2 id).1 = .error (.nameError "np") := rfl

/-- Claim C2 (evaluation of the code at a failing input): download() on a
client whose dataset folder already exists locally prints the notice but
still transfers the payload - the public path fetches all three files
unconditionally and the authenticated path still calls download_folder; the
transfer is not skipped, contradicting the class docstring and the claim. -/
theorem C2_download_refetches_despite_local_copy :
    DatasetCloud.download cPubToy wToy =
      (.ok (),
       [CloudEvent.wget "https://storage.googleapis.com/adversarial_attack/datasets.json"
          "tmp_datasets.json",
        CloudEvent.removeLocal "tmp_datasets.json",
        CloudEvent.notice "Dataset toy already existsin the download directory.",
        CloudEvent.wget "https://storage.googleapis.com/adversarial_attack/toy/metadata.json"
          "dl/toy/metadata.json",
        CloudEvent.wget "https://storage.googleapis.com/adversarial_attack/toy/data.pt"
          "dl/toy/data.pt",
        CloudEvent.wget "https://storage.googleapis.com/adversarial_attack/toy/labels.pt"
          "dl/toy/labels.pt"]) ∧
    DatasetCloud.download cAuthToy2 wDupLocal =
      (.ok (),
       [CloudEvent.notice "Dataset toy2 already existsin the download directory.",
        CloudEvent.downloadFolder "toy2/"]) := ⟨rfl, rfl⟩

/-- Claim C3 (evaluation of the code at a failing input): a three-loader
cross-validation call emits the ignored-validation-loader warning exactly
once, in the first fold, and then raises NameError at np.mean before any
fold-averaged metrics are computed or returned. -/
theorem C3_single_warning_then_nameError :
    warnsOf (Pipeline.train pipeThree 2 true 2 id).2.2 =
      ["Validation set is ignored in automatic Cross Validation"] ∧
    (Pipeline.train pipeThree 2 true 2 id).1 = .error (.nameError "np") := ⟨rfl, rfl⟩

/-- Claim C4, counterexample: in a plain 4-epoch run over 3 batches per epoch
the training-pass scalar steps are 0,1,2, 3,4,5, 6,8,10, 9,12,15 - the step
after 10 is 9, so the sequence over all batches of all epochs is not
monotonically increasing. -/
theorem C4_counterexample_steps_not_monotone :
    lossStepsOf (Pipeline.train pipeTwo 4 false 32 id).2.2 =
      [0, 1, 2, 3, 4, 5, 6, 8, 10, 9, 12, 15] ∧
    ¬ List.Chain' (· ≤ ·) (lossStepsOf (Pipeline.train pipeTwo 4 false 32 id).2.2) := by
  refine ⟨rfl, ?_⟩
  show ¬ List.Chain' (· ≤ ·) ([0, 1, 2, 3, 4, 5, 6, 8, 10, 9, 12, 15] : List Nat)
  simp [List.chain'_cons]

/-- Claim C4 as amended: within each single training pass the emitted step
indices train_epoch * batch + train_cycle are strictly increasing, and
train_cycle is incremented once per batch and never reset, so it carries over
to the next pass; across an epoch boundary the first index of the new pass
can nevertheless be smaller than the last index of the previous pass. -/
theorem C4_amended_within_pass_strictly_increasing {X : Type} (p : Pipeline X)
    (dl : DataLoader X) :
    List.Chain' (· < ·) (lossStepsOf (trainLoop p dl "").2.2) ∧
    (trainLoop p dl "").2.1.train_cycle = p.train_cycle + dl.batches.length := by
  constructor
  · rw [lossStepsOf_trainLoop, List.chain'_map]
    cases h : dl.batches.length with
    | zero => simp
    | succ m =>
      rw [List.chain'_range_succ]
      intro i _
      simp only [Nat.succ_eq_add_one]
      have : p.train_epoch * (i + 1) = p.train_epoch * i + p.train_epoch := by ring
      omega
  · dsimp only [trainLoop]
    split <;> rw [trainLoopAux_state]

/-- Claim C5: an authenticated-mode upload whose dataset name is already in
the remote listing fails with the already-exists error carrying the requested
name and the available names, with an empty event trace: no payload blob is
transferred and remote state is untouched. -/
theorem C5_upload_duplicate_rejected_before_transfer (c : DatasetCloud) (w : Cloud)
    (path_data path_label : String) (path_metadata : Option String)
    (hauth : c.use_public_access = false) (hdup : c.name ∈ uploadListing w) :
    DatasetCloud._upload c w path_data path_label path_metadata =
      (.error (.alreadyExists c.name (uploadListing w)), []) := by
  unfold DatasetCloud._upload DatasetCloud._check_public_access
  rw [hauth]
  simp [hdup]

/-- Witness for C5 at a concrete client and bucket state. -/
theorem C5_upload_duplicate_witness :
    cAuthToy2.use_public_access = false ∧
    cAuthToy2.name ∈ uploadListing wDup ∧
    DatasetCloud._upload cAuthToy2 wDup "data.pt" "labels.pt" none =
      (.error (.alreadyExists cAuthToy2.name (uploadListing wDup)), []) :=
  ⟨rfl, by decide,
   C5_upload_duplicate_rejected_before_transfer cAuthToy2 wDup "data.pt" "labels.pt" none
     rfl (by decide)⟩

/-- Claim C6, counterexample: _upload_label on a public-access client with a
valid extension fails with AttributeError for the missing _data_cloud
attribute, not with the public-access precondition assertion, because
_upload_label is the one upload-class method that never calls
_check_public_access.  So not every upload-class operation fails with a
precondition violation. -/
theorem C6_counterexample_upload_label_not_assertion :
    DatasetCloud._upload_label cPubToy "labels.pt" =
      (.error (.attributeError "_data_cloud"), []) ∧
    isAssertionFailure (DatasetCloud._upload_label cPubToy "labels.pt").1 = false :=
  ⟨rfl, rfl⟩

/-- Claim C6 as amended: on a public-access client, _upload, _upload_data,
_upload_metadata and _update_dataset_list all fail immediately with the
public-access precondition assertion and transfer nothing, while
_upload_label (with a valid extension) fails immediately with AttributeError
for _data_cloud instead, likewise before any transfer. -/
theorem C6_amended_public_mode_write_failures (c : DatasetCloud) (w : Cloud)
    (path_data : String) (pm : Option String)
    (hpub : c.use_public_access = true) :
    DatasetCloud._upload c w path_data "labels.pt" pm =
      (.error (.assertionError publicAccessMsg), []) ∧
    DatasetCloud._upload_data c path_data =
      (.error (.assertionError publicAccessMsg), []) ∧
    DatasetCloud._upload_metadata c pm =
      (.error (.assertionError publicAccessMsg), []) ∧
    DatasetCloud._update_dataset_list c w =
      (.error (.assertionError publicAccessMsg), []) ∧
    DatasetCloud._upload_label c "labels.pt" =
      (.error (.attributeError "_data_cloud"), []) := by
  have hc : DatasetCloud._check_public_access c = .error (.assertionError publicAccessMsg) := by
    unfold DatasetCloud._check_public_access
    rw [hpub]
    rfl
  refine ⟨?_, ?_, ?_, ?_, ?_⟩
  · unfold DatasetCloud._upload
    rw [hc]
  · unfold DatasetCloud._upload_data
    rw [hc]
  · unfold DatasetCloud._upload_metadata
    rw [hc]
  · unfold DatasetCloud._update_dataset_list
    rw [hc]
  · unfold DatasetCloud._upload_label DatasetCloud._get_filetype
    rw [hpub]
    rfl

/-- Witness for C6 at the concrete public client. -/
theorem C6_public_mode_witness :
    cPubToy.use_public_access = true ∧
    DatasetCloud._upload cPubToy wToy "data.pt" "labels.pt" none =
      (.error (.assertionError publicAccessMsg), []) :=
  ⟨rfl, (C6_amended_public_mode_write_failures cPubToy wToy "data.pt" none rfl).1⟩

/-- Witness for C7 at the concrete 5-batch loader. -/
theorem C7_train_pass_witness :
    (trainLoop pipeOne dlTrain10 "").1 =
      .ok (batchLoss pipeOne (pipeOne.train_cycle + (dlTrain10.batches.length - 1))
            (dlTrain10.batches.getLastD []),
        (totalCorrect pipeOne.modelF pipeOne.train_cycle dlTrain10.batches : ℚ) /
          (dlTrain10.dataset.length : ℚ)) ∧
    0 ≤ (totalCorrect pipeOne.modelF pipeOne.train_cycle dlTrain10.batches : ℚ) /
        (dlTrain10.dataset.length : ℚ) ∧
    (totalCorrect pipeOne.modelF pipeOne.train_cycle dlTrain10.batches : ℚ) /
        (dlTrain10.dataset.length : ℚ) ≤ 1 ∧
    ((∀ j b, dlTrain10.batches[j]? = some b →
        ∀ s ∈ b, argmaxIdx (pipeOne.modelF (pipeOne.train_cycle + j) s.1) = s.2) →
      (totalCorrect pipeOne.modelF pipeOne.train_cycle dlTrain10.batches : ℚ) /
        (dlTrain10.dataset.length : ℚ) = 1) :=
  C7_train_pass_last_loss_accuracy pipeOne dlTrain10 "" (by decide) (by decide) (by decide)

/-- Claim C8: with a three-loader configuration, every access that
Pipeline.train makes to the dataloaders list is to index 0 or index 1; index
2 is never read in either mode. -/
theorem C8_never_reads_third_loader {X : Type} (p : Pipeline X) (n_epochs : Nat)
    (cv : Bool) (bs : Nat) (perm : List Nat → List Nat)
    (hlen : p.dataloaders.length = 3) :
    ((readsOf (Pipeline.train p n_epochs cv bs perm).2.2).all
      (fun i => i == 0 || i == 1)) = true :=
  readsOf_train_all p n_epochs cv bs perm

/-- Witness for C8 at the concrete three-loader pipeline. -/
theorem C8_three_loader_witness :
    pipeThree.dataloaders.length = 3 ∧
    ((readsOf (Pipeline.train pipeThree 2 true 2 id).2.2).all
      (fun i => i == 0 || i == 1)) = true :=
  ⟨rfl, C8_never_reads_third_loader pipeThree 2 true 2 id rfl⟩

/-- Claim C10: building metadata on a public-access client fails with the
public-access precondition assertion even though the operation only writes a
local temporary file; on an authenticated client it writes the record to the
temporary file with keys sorted and indent 4, defaulting name to the client
dataset name and data_format to pytorch_tensor. -/
theorem C10_add_metadata_public_assert_and_sorted_write (c1 c2 : DatasetCloud)
    (size_dataset : Nat) (input_size : List Nat) (num_labels : Option Nat)
    (data_type task_type : String) (comment : Option String)
    (h1 : c1.use_public_access = true) (h2 : c2.use_public_access = false) :
    DatasetCloud._add_metadata c1 size_dataset input_size num_labels data_type task_type
      none none comment = (.error (.assertionError publicAccessMsg), []) ∧
    DatasetCloud._add_metadata c2 size_dataset input_size num_labels data_type task_type
      none none comment =
      (.ok { c2 with
              path_metadata := some "tmp_metadata.json",
              metadata := some (mdRecord c2.name size_dataset input_size num_labels data_type
                task_type "pytorch_tensor" comment) },
       [CloudEvent.writeMetadata "tmp_metadata.json"
          (sortByKey (Metadata.pairs (mdRecord c2.name size_dataset input_size num_labels
            data_type task_type "pytorch_tensor" comment))) 4]) ∧
    (sortByKey (Metadata.pairs (mdRecord c2.name size_dataset input_size num_labels
        data_type task_type "pytorch_tensor" comment))).map Prod.fst =
      ["comment", "data_format", "data_type", "input_size", "name", "num_labels",
       "size", "task_type"] ∧
    strictSortedKeys ((sortByKey (Metadata.pairs (mdRecord c2.name size_dataset input_size
        num_labels data_type task_type "pytorch_tensor" comment))).map Prod.fst) = true := by
  have hc1 : DatasetCloud._check_public_access c1 = .error (.assertionError publicAccessMsg) := by
    unfold DatasetCloud._check_public_access
    rw [h1]
    rfl
  have hc2 : DatasetCloud._check_public_access c2 = .ok () := by
    unfold DatasetCloud._check_public_access
    rw [h2]
    rfl
  refine ⟨?_, ?_, ?_, ?_⟩
  · unfold DatasetCloud._add_metadata
    rw [hc1]
  · unfold DatasetCloud._add_metadata
    rw [hc2]
    rfl
  · rfl
  · rfl

/-- Witness for C10 at the two concrete clients. -/
theorem C10_add_metadata_witness :
    cPubToy.use_public_access = true ∧
    cAuthToy2.use_public_access = false ∧
    DatasetCloud._add_metadata cPubToy 10 [3] (some 2) "tabular" "classification"
      none none none = (.error (.assertionError publicAccessMsg), []) :=
  ⟨rfl, rfl,
   (C10_add_metadata_public_assert_and_sorted_write cPubToy cAuthToy2 10 [3] (some 2)
     "tabular" "classification" none rfl rfl).1⟩
